import Mathlib

/-!
Verification of the l2-hybrid-protocol frame codec, VLAN handling,
MAC-address text conversion, MTU planner, interface-name validation and
hybrid-session receive filtering, as a shallow embedding of the C++
sources (src/frame.cpp, src/vlan.cpp, src/interface.cpp,
include/l2net/mtu.hpp, src/hybrid_chat.cpp).

Bytes are modelled as Nat values (always written modulo 256 where the
source stores into uint8_t), buffers as List Nat, fallible operations as
Except over the error_code enum.  Big-endian 16-bit reads such as
(data[12] << 8) | data[13] on uint8_t operands are written
256 * hi + lo, which is the same number because the low byte occupies
disjoint bits.  The htons library call is modelled with an explicit
littleEndian flag: on a little-endian host it swaps the two bytes of a
16-bit value, on a big-endian host it is the identity.
-/

namespace L2Net

/-- error_code enum from include/l2net/common.hpp. -/
inductive ErrorCodeT where
  | success
  | socketCreationFailed
  | socketBindFailed
  | socketSendFailed
  | socketRecvFailed
  | interfaceNotFound
  | interfaceQueryFailed
  | invalidMacAddress
  | invalidFrameSize
  | invalidVlanId
  | invalidPriority
  | connectionFailed
  | handshakeFailed
  | permissionDenied
  | bufferTooSmall
  | timeout
  deriving DecidableEq, Repr

/-- Decidable equality for Except values, so concrete runs of the model
can be checked by decide. -/
instance (priority := low) exceptDecEq {ε α : Type} [DecidableEq ε]
    [DecidableEq α] : DecidableEq (Except ε α) := fun x y =>
  match x, y with
  | .ok a, .ok b =>
    if h : a = b then .isTrue (by rw [h])
    else .isFalse (by intro hc; cases hc; exact h rfl)
  | .error a, .error b =>
    if h : a = b then .isTrue (by rw [h])
    else .isFalse (by intro hc; cases hc; exact h rfl)
  | .ok _, .error _ => .isFalse (by intro hc; cases hc)
  | .error _, .ok _ => .isFalse (by intro hc; cases hc)

/-- uint16_t truncation. -/
def u16 (v : Nat) : Nat := v % 65536

/-- uint8_t truncation. -/
def u8 (v : Nat) : Nat := v % 256

/-- htons from arpa/inet.h (same semantics as byte_utils::htons_constexpr in
include/l2net/common.hpp): on a little-endian host the two bytes of the
16-bit value are swapped, on a big-endian host the value is unchanged. -/
def htons16 (littleEndian : Bool) (v : Nat) : Nat :=
  if littleEndian then u16 (v % 256 * 256 + v / 256 % 256) else u16 v

/-- Constants from l2net::constants (include/l2net/common.hpp). -/
def eth_header_size : Nat := 14
def vlan_header_size : Nat := 4
def eth_vlan_header_size : Nat := 18
def eth_p_8021q : Nat := 0x8100
def eth_p_custom : Nat := 0x88B5
def max_vlan_id : Nat := 4095
def max_priority : Nat := 7

/-- frame_builder::build_into (src/frame.cpp:37-65): byte image of the
written buffer, for a dst/src of six bytes each.  Bytes 12-13 are written
from htons(ether_type) by value-level shifts:
buffer[12] = net_type >> 8, buffer[13] = net_type & 0xFF. -/
def frameBytes (littleEndian : Bool) (dst src : List Nat) (etherType : Nat)
    (payload : List Nat) : List Nat :=
  let net := htons16 littleEndian etherType
  dst ++ src ++ [u8 (net / 256), u8 net] ++ payload

/-- frame_builder::build / build_simple_frame (src/frame.cpp:17-35,223-249):
allocates a buffer of exactly 14 + payload bytes and fills it via
build_into; the total_size < eth_header_size guard can never fire. -/
def build_simple_frame (littleEndian : Bool) (dst src : List Nat)
    (etherType : Nat) (payload : List Nat) : Except ErrorCodeT (List Nat) :=
  if eth_header_size + payload.length < eth_header_size then
    .error .invalidFrameSize
  else
    .ok (frameBytes littleEndian dst src etherType payload)

/-- frame_builder::build_into error behaviour (src/frame.cpp:41-44): the
only failure is buffer_too_small when the destination capacity is below
14 + payload size; on success the written size is returned. -/
def frame_build_into_result (payloadLen capacity : Nat) :
    Except ErrorCodeT Nat :=
  if capacity < eth_header_size + payloadLen then .error .bufferTooSmall
  else .ok (eth_header_size + payloadLen)

/-- State of a frame_parser (include/l2net/frame.hpp:109-156). -/
structure FrameParse where
  data : List Nat
  valid : Bool
  hasVlanTag : Bool
  deriving DecidableEq, Repr

/-- frame_parser::parse (src/frame.cpp:86-112): length below 14 is
invalid; a 0x8100 type field at offset 12 sets the vlan flag and then
demands length at least 18. -/
def parseFrame (data : List Nat) : FrameParse :=
  if data.length < eth_header_size then
    { data := data, valid := false, hasVlanTag := false }
  else if 256 * data.getD 12 0 + data.getD 13 0 = eth_p_8021q then
    if data.length < eth_vlan_header_size then
      { data := data, valid := false, hasVlanTag := true }
    else
      { data := data, valid := true, hasVlanTag := true }
  else
    { data := data, valid := true, hasVlanTag := false }

/-- frame_parser::dest_mac (src/frame.cpp:116-126). -/
def FrameParse.destMac (p : FrameParse) : List Nat :=
  if p.valid = false ∨ p.data.length < 6 then List.replicate 6 0
  else p.data.take 6

/-- frame_parser::src_mac (src/frame.cpp:128-138). -/
def FrameParse.srcMac (p : FrameParse) : List Nat :=
  if p.valid = false ∨ p.data.length < 12 then List.replicate 6 0
  else (p.data.drop 6).take 6

/-- frame_parser::ether_type (src/frame.cpp:140-159): offset 16 for a
tagged frame (0 if shorter than 18), offset 12 otherwise. -/
def FrameParse.etherType (p : FrameParse) : Nat :=
  if p.valid = false then 0
  else if p.hasVlanTag then
    if p.data.length < 18 then 0
    else 256 * p.data.getD 16 0 + p.data.getD 17 0
  else 256 * p.data.getD 12 0 + p.data.getD 13 0

/-- frame_parser::vlan_id (src/frame.cpp:161-172): the received TCI at
bytes 14-15 masked with 0x0FFF, i.e. reduced mod 4096. -/
def FrameParse.vlanId (p : FrameParse) : Nat :=
  if p.valid = false ∨ p.hasVlanTag = false ∨ p.data.length < 16 then 0
  else (256 * p.data.getD 14 0 + p.data.getD 15 0) % 4096

/-- frame_parser::vlan_priority (src/frame.cpp:174-185): top three bits of
the TCI, (tci >> 13) & 0x07, i.e. tci / 8192 mod 8. -/
def FrameParse.vlanPriority (p : FrameParse) : Nat :=
  if p.valid = false ∨ p.hasVlanTag = false ∨ p.data.length < 16 then 0
  else (256 * p.data.getD 14 0 + p.data.getD 15 0) / 8192 % 8

/-- frame_parser::header_size (include/l2net/frame.hpp:152-155): depends
only on the vlan flag, with no validity guard. -/
def FrameParse.headerSize (p : FrameParse) : Nat :=
  if p.hasVlanTag then eth_vlan_header_size else eth_header_size

/-- frame_parser::payload (src/frame.cpp:187-201). -/
def FrameParse.payload (p : FrameParse) : List Nat :=
  if p.valid = false then []
  else if p.data.length ≤ p.headerSize then []
  else p.data.drop p.headerSize

/-- frame_parser::payload_size (src/frame.cpp:203-217). -/
def FrameParse.payloadSize (p : FrameParse) : Nat :=
  if p.valid = false then 0
  else if p.data.length ≤ p.headerSize then 0
  else p.data.length - p.headerSize

/-- vlan_tci (include/l2net/vlan.hpp:18-48).  priority is a uint8_t and
vlan_id a uint16_t in the source; values are kept as Nat and the
operations below apply the same truncations the C++ casts do. -/
structure VlanTci where
  priority : Nat
  dei : Bool
  vlanId : Nat
  deriving DecidableEq, Repr

/-- vlan_tci::is_valid (include/l2net/vlan.hpp:24-26). -/
def VlanTci.isValid (t : VlanTci) : Bool :=
  decide (t.priority ≤ max_priority ∧ t.vlanId ≤ max_vlan_id)

/-- vlan_tci::encode (include/l2net/vlan.hpp:29-35):
(priority << 13) | (dei << 12) | (vlan_id & 0x0FFF) cast to uint16_t.
The three fields occupy disjoint bit ranges (bits 13+, bit 12, bits 0-11),
so the bitwise or equals the sum. -/
def VlanTci.encode (t : VlanTci) : Nat :=
  u16 (8192 * t.priority + 4096 * (if t.dei then 1 else 0) + t.vlanId % 4096)

/-- vlan_tci::decode (include/l2net/vlan.hpp:38-44). -/
def VlanTci.decode (tci : Nat) : VlanTci :=
  { priority := tci / 8192 % 8
    dei := tci / 4096 % 2 ≠ 0
    vlanId := tci % 4096 }

/-- vlan_frame_builder::validate (src/vlan.cpp:15-25): when the TCI is
invalid the vlan_id bound is checked first, then the priority bound. -/
def vlanValidate (t : VlanTci) : Except ErrorCodeT Unit :=
  if t.isValid = false then
    if t.vlanId > max_vlan_id then .error .invalidVlanId
    else if t.priority > max_priority then .error .invalidPriority
    else .ok ()
  else .ok ()

/-- vlan_frame_builder::build_into byte image (src/vlan.cpp:54-79), for a
dst/src of six bytes each: TPID, encoded TCI and inner ethertype are
each passed through htons and then re-extracted by value-level shifts. -/
def vlanFrameBytes (littleEndian : Bool) (dst src : List Nat) (tci : VlanTci)
    (innerEtherType : Nat) (payload : List Nat) : List Nat :=
  let tpid := htons16 littleEndian eth_p_8021q
  let tciw := htons16 littleEndian tci.encode
  let inner := htons16 littleEndian innerEtherType
  dst ++ src ++ [u8 (tpid / 256), u8 tpid] ++ [u8 (tciw / 256), u8 tciw] ++
    [u8 (inner / 256), u8 inner] ++ payload

/-- vlan_frame_builder::build / build_vlan_frame (src/vlan.cpp:27-41,
96-126): validate the TCI, then fill a buffer of exactly 18 + payload
bytes. -/
def build_vlan_frame (littleEndian : Bool) (dst src : List Nat)
    (tci : VlanTci) (innerEtherType : Nat) (payload : List Nat) :
    Except ErrorCodeT (List Nat) :=
  match vlanValidate tci with
  | .error e => .error e
  | .ok _ => .ok (vlanFrameBytes littleEndian dst src tci innerEtherType payload)

/-- vlan_frame_builder::build_into error behaviour (src/vlan.cpp:43-52):
TCI validation runs first; only then is the capacity compared against
18 + payload size. -/
def vlan_build_into_result (tci : VlanTci) (payloadLen capacity : Nat) :
    Except ErrorCodeT Nat :=
  match vlanValidate tci with
  | .error e => .error e
  | .ok _ =>
    if capacity < eth_vlan_header_size + payloadLen then .error .bufferTooSmall
    else .ok (eth_vlan_header_size + payloadLen)

/-- is_vlan_tagged (src/vlan.cpp:128-137). -/
def is_vlan_tagged (frame : List Nat) : Bool :=
  if frame.length < eth_header_size then false
  else decide (256 * frame.getD 12 0 + frame.getD 13 0 = eth_p_8021q)

/-- strip_vlan_tag (src/vlan.cpp:139-170): untagged input is copied
unchanged; a tagged frame shorter than 18 bytes fails; otherwise the
result is dst, src, the inner ethertype bytes from offsets 16-17, and the
bytes from offset 18 on. -/
def strip_vlan_tag (frame : List Nat) : Except ErrorCodeT (List Nat) :=
  if is_vlan_tagged frame = false then .ok frame
  else if frame.length < eth_vlan_header_size then .error .invalidFrameSize
  else .ok (frame.take 12 ++ [frame.getD 16 0, frame.getD 17 0] ++ frame.drop 18)

/-- The hex_to_int lambda in mac_address::from_string
(src/interface.cpp:93-102): digits, lowercase a-f and uppercase A-F are
accepted; everything else maps to -1. -/
def hexToInt (c : Char) : Int :=
  if '0' ≤ c ∧ c ≤ '9' then (c.toNat : Int) - 48
  else if 'a' ≤ c ∧ c ≤ 'f' then (c.toNat : Int) - 97 + 10
  else if 'A' ≤ c ∧ c ≤ 'F' then (c.toNat : Int) - 65 + 10
  else -1

/-- The character loop of mac_address::from_string
(src/interface.cpp:80-114): index i walks the string; positions with
i mod 3 = 2 must hold the separator, all other positions are consumed
two at a time as a hex pair ((high << 4) | low with both nibbles below
16 equals 16 * high + low).  The list argument is the suffix of the
string from position i on, so the loop guard i < str.size() becomes the
cons pattern, and the loop exits as in the source when byte_idx reaches
6.  The inner empty-suffix arm corresponds to the read of str[i + 1] at
i + 1 = str.size(), which cannot be reached from mac_from_string because
a 17-character string has its last hex pair at i = 15. -/
def fromStringLoop (sep : Char) : List Char → Nat → Nat → List Nat →
    Except ErrorCodeT (List Nat)
  | [], _, byteIdx, acc =>
    if byteIdx ≠ 6 then .error .invalidMacAddress else .ok acc
  | c :: rest, i, byteIdx, acc =>
    if byteIdx < 6 then
      if i % 3 = 2 then
        if c ≠ sep then .error .invalidMacAddress
        else fromStringLoop sep rest (i + 1) byteIdx acc
      else
        match rest with
        | [] => .error .invalidMacAddress
        | c' :: rest' =>
          if hexToInt c < 0 ∨ hexToInt c' < 0 then .error .invalidMacAddress
          else fromStringLoop sep rest' (i + 2) (byteIdx + 1)
            (acc ++ [(hexToInt c).toNat * 16 + (hexToInt c').toNat])
    else if byteIdx ≠ 6 then .error .invalidMacAddress
    else .ok acc

/-- mac_address::from_string (src/interface.cpp:61-122): length must be
exactly 17, the separator is taken from position 2 and must be a colon or
a dash, then the loop parses six hex pairs. -/
def mac_from_string (s : List Char) : Except ErrorCodeT (List Nat) :=
  if s.length ≠ 17 then .error .invalidMacAddress
  else if s.getD 2 ' ' ≠ ':' ∧ s.getD 2 ' ' ≠ '-' then
    .error .invalidMacAddress
  else fromStringLoop (s.getD 2 ' ') s 0 0 []

/-- One lowercase hex digit of the 02x format used by
mac_address::to_string. -/
def hexDigit (n : Nat) : Char :=
  if n < 10 then Char.ofNat (48 + n) else Char.ofNat (87 + n)

/-- mac_address::to_string (src/interface.cpp:124-128): each of the six
bytes rendered as two lowercase hex digits, joined by colons.  The match
arm for other shapes is unreachable because a mac_address always holds
exactly six bytes. -/
def mac_to_string (m : List Nat) : List Char :=
  match m with
  | [b0, b1, b2, b3, b4, b5] =>
    [hexDigit (b0 / 16 % 16), hexDigit (b0 % 16), ':',
     hexDigit (b1 / 16 % 16), hexDigit (b1 % 16), ':',
     hexDigit (b2 / 16 % 16), hexDigit (b2 % 16), ':',
     hexDigit (b3 / 16 % 16), hexDigit (b3 % 16), ':',
     hexDigit (b4 / 16 % 16), hexDigit (b4 % 16), ':',
     hexDigit (b5 / 16 % 16), hexDigit (b5 % 16)]
  | _ => []

/-- A MAC value: six bytes. -/
def macOk (m : List Nat) : Prop := m.length = 6 ∧ ∀ b ∈ m, b < 256

/-- Claim-side description of a well-formed MAC string: 17 characters,
a consistent colon or dash separator at positions 2, 5, 8, 11, 14 (taken
from position 2), and hex digits (0-9, a-f, A-F) everywhere else. -/
def isHexChar (c : Char) : Bool :=
  ('0' ≤ c ∧ c ≤ '9') ∨ ('a' ≤ c ∧ c ≤ 'f') ∨ ('A' ≤ c ∧ c ≤ 'F')

/-- Claim-side well-formedness of a MAC string. -/
def macStringWellFormed (s : List Char) : Bool :=
  decide (s.length = 17) &&
  (decide (s.getD 2 ' ' = ':') || decide (s.getD 2 ' ' = '-')) &&
  decide (s.getD 5 ' ' = s.getD 2 ' ') &&
  decide (s.getD 8 ' ' = s.getD 2 ' ') &&
  decide (s.getD 11 ' ' = s.getD 2 ' ') &&
  decide (s.getD 14 ' ' = s.getD 2 ' ') &&
  ([0, 1, 3, 4, 6, 7, 9, 10, 12, 13, 15, 16].all fun i => isHexChar (s.getD i ' '))

/-- A lowercase hex digit or decimal digit, as rendered by to_string. -/
def isLowerHexChar (c : Char) : Bool :=
  decide (('0' ≤ c ∧ c ≤ '9') ∨ ('a' ≤ c ∧ c ≤ 'f'))

/-- Claim-side description of the to_string output shape: 17 characters,
colons at positions 2, 5, 8, 11, 14, lowercase hex digits everywhere
else. -/
def lowercaseColonRendered (s : List Char) : Bool :=
  decide (s.length = 17) &&
  ([2, 5, 8, 11, 14].all fun i => decide (s.getD i ' ' = ':')) &&
  ([0, 1, 3, 4, 6, 7, 9, 10, 12, 13, 15, 16].all fun i =>
    isLowerHexChar (s.getD i ' '))

/-- calculate_max_payload (include/l2net/mtu.hpp:169-173); C++ int
arithmetic modelled over Int. -/
def calculate_max_payload (mtu : Int) (hasVlan : Bool) : Int :=
  mtu - (14 + if hasVlan then 4 else 0)

/-- calculate_required_mtu (include/l2net/mtu.hpp:179-183). -/
def calculate_required_mtu (payloadSize : Int) (hasVlan : Bool) : Int :=
  payloadSize + (14 + if hasVlan then 4 else 0)

/-- payload_fits_mtu (include/l2net/mtu.hpp:190-193). -/
def payload_fits_mtu (payloadSize mtu : Int) (hasVlan : Bool) : Bool :=
  decide (calculate_required_mtu payloadSize hasVlan ≤ mtu)

/-- mtu_negotiation_result (include/l2net/mtu.hpp:200-214). -/
structure MtuNegotiationResult where
  localMtu : Int
  remoteMtu : Int
  effectiveMtu : Int
  maxPayload : Int
  hasVlan : Bool
  jumboCapable : Bool
  deriving DecidableEq, Repr

/-- negotiate_mtu (include/l2net/mtu.hpp:221-233). -/
def negotiate_mtu (localMtu remoteMtu : Int) (hasVlan : Bool) :
    MtuNegotiationResult :=
  let effective := min localMtu remoteMtu
  { localMtu := localMtu
    remoteMtu := remoteMtu
    effectiveMtu := effective
    maxPayload := calculate_max_payload effective hasVlan
    hasVlan := hasVlan
    jumboCapable := decide (localMtu ≥ 9000 ∧ remoteMtu ≥ 9000) }

/-- Interface descriptor (include/l2net/interface.hpp), as far as the
query claim needs it. -/
structure InterfaceInfo where
  name : List Char
  index : Nat
  mac : List Nat
  mtu : Nat
  isUp : Bool
  isLoopback : Bool
  deriving DecidableEq, Repr

/-- IFNAMSIZ on the targeted hosts (net/if.h). -/
def ifnamsiz : Nat := 16

/-- interface_info::query (src/interface.cpp:134-186).  The only
validation performed before any socket or ioctl call is the emptiness and
length check on line 136; everything from the socket creation on is
kernel interaction and is abstracted as the kernel argument. -/
def interface_query (kernel : List Char → Except ErrorCodeT InterfaceInfo)
    (name : List Char) : Except ErrorCodeT InterfaceInfo :=
  if name.length = 0 ∨ ifnamsiz ≤ name.length then .error .interfaceNotFound
  else kernel name

/-- data_message (include/l2net/hybrid_chat.hpp:39-46). -/
structure DataMessage where
  source : List Nat
  priority : Nat
  vlanId : Nat
  wasTagged : Bool
  payload : List Nat
  deriving DecidableEq, Repr

/-- The pure frame-processing tail of hybrid_endpoint::receive_data
(src/hybrid_chat.cpp:156-183), applied to the bytes the raw socket
delivered: an invalid parse or a non-matching ethertype both return the
invalid_frame_size error; otherwise the message is filled from the
parser. -/
def receive_data_step (dataProtocol : Nat) (buffer : List Nat) :
    Except ErrorCodeT DataMessage :=
  if (parseFrame buffer).valid = false then .error .invalidFrameSize
  else if (parseFrame buffer).etherType ≠ dataProtocol then
    .error .invalidFrameSize
  else
    .ok { source := (parseFrame buffer).srcMac
          priority := if (parseFrame buffer).hasVlanTag then
            (parseFrame buffer).vlanPriority else 0
          vlanId := if (parseFrame buffer).hasVlanTag then
            (parseFrame buffer).vlanId else 0
          wasTagged := (parseFrame buffer).hasVlanTag
          payload := (parseFrame buffer).payload }

/-- The per-frame body of hybrid_endpoint::receiver_loop
(src/hybrid_chat.cpp:247-272): an invalid parse or a non-matching
ethertype makes the loop continue without invoking the callback (none);
a matching frame produces the message handed to the callback. -/
def receiver_loop_step (dataProtocol : Nat) (buffer : List Nat) :
    Option DataMessage :=
  if (parseFrame buffer).valid = false then none
  else if (parseFrame buffer).etherType ≠ dataProtocol then none
  else
    some { source := (parseFrame buffer).srcMac
           priority := if (parseFrame buffer).hasVlanTag then
             (parseFrame buffer).vlanPriority else 0
           vlanId := if (parseFrame buffer).hasVlanTag then
             (parseFrame buffer).vlanId else 0
           wasTagged := (parseFrame buffer).hasVlanTag
           payload := (parseFrame buffer).payload }

/-- parseFrame keeps the borrowed range unchanged in every branch. -/
theorem parseFrame_data (data : List Nat) : (parseFrame data).data = data := by
  unfold parseFrame
  split
  · rfl
  · split
    · split <;> rfl
    · rfl

/-- C1: on a little-endian host, frame_builder::build_into applies htons
to the ethertype and then re-extracts the bytes with value-level shifts,
so the two ethertype bytes are emitted low-byte first: building with
ethertype 0x0800 yields bytes 12..13 = 00 08 instead of the 08 00 the
unit tests require, and re-parsing the built frame returns ethertype
0x0008, not 0x0800.  On a big-endian host the same code emits 08 00. -/
theorem build_parse_ethertype_little_endian_divergence :
    build_simple_frame true
        [0xFF, 0xFF, 0xFF, 0xFF, 0xFF, 0xFF]
        [0x00, 0x11, 0x22, 0x33, 0x44, 0x55] 0x0800 []
      = .ok [0xFF, 0xFF, 0xFF, 0xFF, 0xFF, 0xFF,
             0x00, 0x11, 0x22, 0x33, 0x44, 0x55, 0x00, 0x08] ∧
    (parseFrame [0xFF, 0xFF, 0xFF, 0xFF, 0xFF, 0xFF,
                 0x00, 0x11, 0x22, 0x33, 0x44, 0x55, 0x00, 0x08]).etherType
      = 0x0008 ∧
    (0x0008 : Nat) ≠ 0x0800 ∧
    build_simple_frame false
        [0xFF, 0xFF, 0xFF, 0xFF, 0xFF, 0xFF]
        [0x00, 0x11, 0x22, 0x33, 0x44, 0x55] 0x0800 []
      = .ok [0xFF, 0xFF, 0xFF, 0xFF, 0xFF, 0xFF,
             0x00, 0x11, 0x22, 0x33, 0x44, 0x55, 0x08, 0x00] := by
  decide

/-- C2: on a little-endian host, vlan_frame_builder::build_into emits the
TPID, TCI and inner-ethertype byte pairs swapped (00 81, 0A E0, B5 88 for
the claim's concrete inputs instead of 81 00, E0 0A, 88 B5), so the
parser does not even recognise the built frame as VLAN tagged.  On a
big-endian host the bytes come out as the claim states. -/
theorem build_vlan_little_endian_divergence :
    build_vlan_frame true
        [0xAA, 0xBB, 0xCC, 0xDD, 0xEE, 0xFF]
        [0x11, 0x22, 0x33, 0x44, 0x55, 0x66]
        ⟨7, false, 10⟩ 0x88B5 [0x54, 0x45, 0x53, 0x54]
      = .ok [0xAA, 0xBB, 0xCC, 0xDD, 0xEE, 0xFF,
             0x11, 0x22, 0x33, 0x44, 0x55, 0x66,
             0x00, 0x81, 0x0A, 0xE0, 0xB5, 0x88,
             0x54, 0x45, 0x53, 0x54] ∧
    (parseFrame [0xAA, 0xBB, 0xCC, 0xDD, 0xEE, 0xFF,
                 0x11, 0x22, 0x33, 0x44, 0x55, 0x66,
                 0x00, 0x81, 0x0A, 0xE0, 0xB5, 0x88,
                 0x54, 0x45, 0x53, 0x54]).hasVlanTag = false ∧
    (parseFrame [0xAA, 0xBB, 0xCC, 0xDD, 0xEE, 0xFF,
                 0x11, 0x22, 0x33, 0x44, 0x55, 0x66,
                 0x00, 0x81, 0x0A, 0xE0, 0xB5, 0x88,
                 0x54, 0x45, 0x53, 0x54]).etherType = 0x0081 ∧
    build_vlan_frame false
        [0xAA, 0xBB, 0xCC, 0xDD, 0xEE, 0xFF]
        [0x11, 0x22, 0x33, 0x44, 0x55, 0x66]
        ⟨7, false, 10⟩ 0x88B5 [0x54, 0x45, 0x53, 0x54]
      = .ok [0xAA, 0xBB, 0xCC, 0xDD, 0xEE, 0xFF,
             0x11, 0x22, 0x33, 0x44, 0x55, 0x66,
             0x81, 0x00, 0xE0, 0x0A, 0x88, 0xB5,
             0x54, 0x45, 0x53, 0x54] := by
  decide

/-- C3 counterexample: a 17-byte range carrying 0x8100 at offsets 12..13
parses as invalid, yet header_size on that invalid parser returns 18, not
the zero the claim assigns to every accessor of an invalid parser. -/
theorem invalid_header_size_not_zero :
    (parseFrame [0, 0, 0, 0, 0, 0, 0, 0, 0, 0, 0, 0,
                 0x81, 0x00, 0, 0, 0]).valid = false ∧
    (parseFrame [0, 0, 0, 0, 0, 0, 0, 0, 0, 0, 0, 0,
                 0x81, 0x00, 0, 0, 0]).headerSize = 18 ∧
    (18 : Nat) ≠ 0 := by
  decide

/-- C5 counterexample: with vlan_id = 5000 and priority = 8 both out of
range, build returns invalid_vlan_id, so the claim that a priority above
7 always yields invalid_priority is false. -/
theorem vlan_validate_priority_counterexample :
    build_vlan_frame true [0, 0, 0, 0, 0, 0] [0, 0, 0, 0, 0, 0]
        ⟨8, false, 5000⟩ 0x88B5 []
      = .error .invalidVlanId ∧
    ErrorCodeT.invalidVlanId ≠ ErrorCodeT.invalidPriority := by
  decide

/-- C5 amended: the vlan builders fail with invalid_vlan_id whenever
vlan_id exceeds 4095; with invalid_priority whenever priority exceeds 7
and vlan_id is in range (the vlan_id check runs first); the tagged
build_into fails with buffer_too_small when the TCI is valid and the
capacity is below 18 + payload; the untagged build_into fails with
buffer_too_small whenever the capacity is below 14 + payload. -/
theorem vlan_build_error_spec (le : Bool) (dst src payload : List Nat)
    (inner : Nat) (tci : VlanTci) (payloadLen capacity : Nat) :
    (tci.vlanId > 4095 →
      build_vlan_frame le dst src tci inner payload = .error .invalidVlanId ∧
      vlan_build_into_result tci payloadLen capacity = .error .invalidVlanId) ∧
    (tci.vlanId ≤ 4095 → tci.priority > 7 →
      build_vlan_frame le dst src tci inner payload = .error .invalidPriority ∧
      vlan_build_into_result tci payloadLen capacity = .error .invalidPriority) ∧
    (tci.isValid = true → capacity < 18 + payloadLen →
      vlan_build_into_result tci payloadLen capacity = .error .bufferTooSmall) ∧
    (capacity < 14 + payloadLen →
      frame_build_into_result payloadLen capacity = .error .bufferTooSmall) := by
  refine ⟨fun h => ?_, fun h hp => ?_, fun h hc => ?_, fun h => ?_⟩
  · have hvalid : tci.isValid = false := by
      simp only [VlanTci.isValid, max_priority, max_vlan_id, decide_eq_false_iff_not]
      omega
    have hvr : vlanValidate tci = .error .invalidVlanId := by
      unfold vlanValidate
      simp only [max_vlan_id, max_priority]
      rw [hvalid, if_pos rfl, if_pos h]
    constructor
    · unfold build_vlan_frame
      rw [hvr]
    · unfold vlan_build_into_result
      rw [hvr]
  · have hvalid : tci.isValid = false := by
      simp only [VlanTci.isValid, max_priority, max_vlan_id, decide_eq_false_iff_not]
      omega
    have hvr : vlanValidate tci = .error .invalidPriority := by
      unfold vlanValidate
      simp only [max_vlan_id, max_priority]
      rw [hvalid, if_pos rfl, if_neg (by omega), if_pos (by omega)]
    constructor
    · unfold build_vlan_frame
      rw [hvr]
    · unfold vlan_build_into_result
      rw [hvr]
  · have hvr : vlanValidate tci = .ok () := by
      unfold vlanValidate
      rw [h]
      simp
    unfold vlan_build_into_result
    rw [hvr]
    simp only [eth_vlan_header_size]
    rw [if_pos (by omega)]
  · unfold frame_build_into_result
    simp only [eth_header_size]
    rw [if_pos (by omega)]

/-- Witness for the vlan build error spec at concrete inputs. -/
theorem vlan_build_error_spec_witness :
    build_vlan_frame true [] [] ⟨0, false, 4096⟩ 0 [] = .error .invalidVlanId ∧
    build_vlan_frame true [] [] ⟨8, false, 0⟩ 0 [] = .error .invalidPriority ∧
    vlan_build_into_result ⟨0, false, 0⟩ 0 17 = .error .bufferTooSmall ∧
    frame_build_into_result 0 13 = .error .bufferTooSmall :=
  ⟨((vlan_build_error_spec true [] [] [] 0 ⟨0, false, 4096⟩ 0 0).1
      (by decide)).1,
   ((vlan_build_error_spec true [] [] [] 0 ⟨8, false, 0⟩ 0 0).2.1
      (by decide) (by decide)).1,
   (vlan_build_error_spec true [] [] [] 0 ⟨0, false, 0⟩ 0 17).2.2.1
      (by decide) (by decide),
   (vlan_build_error_spec true [] [] [] 0 ⟨0, false, 0⟩ 0 13).2.2.2
      (by decide)⟩

/-- C7: the MTU planner functions are pure arithmetic; max payload plus
header overhead gives back the mtu, a payload always fits the mtu
computed as required for it, negotiation takes the minimum mtu, derives
max payload from it, grants jumbo capability exactly when both sides are
at 9000 or above, and the claim's concrete asymmetric example evaluates
as stated. -/
theorem mtu_planner_spec (mtu p a b : Int) (v : Bool) :
    calculate_max_payload mtu v + (14 + (if v then 4 else 0)) = mtu ∧
    payload_fits_mtu p (calculate_required_mtu p v) v = true ∧
    (negotiate_mtu a b v).effectiveMtu = min a b ∧
    (negotiate_mtu a b v).maxPayload = calculate_max_payload (min a b) v ∧
    ((negotiate_mtu a b v).jumboCapable = true ↔ 9000 ≤ a ∧ 9000 ≤ b) ∧
    negotiate_mtu 9000 1500 false =
      ⟨9000, 1500, 1500, 1486, false, false⟩ := by
  refine ⟨?_, ?_, rfl, rfl, ?_, by decide⟩
  · unfold calculate_max_payload
    ring
  · unfold payload_fits_mtu
    simp
  · unfold negotiate_mtu
    simp [ge_iff_le]

/-- C8 counterexample: a well-formed frame whose ethertype 0xAAAA differs
from the configured data ethertype 0x88B5 is surfaced by receive_data as
an invalid_frame_size error, not silently dropped. -/
theorem receive_data_mismatch_error :
    receive_data_step eth_p_custom
        [0, 0, 0, 0, 0, 0, 1, 2, 3, 4, 5, 6, 0xAA, 0xAA, 9, 9]
      = .error .invalidFrameSize := by
  decide

/-- C8 amended: for a well-formed frame whose ethertype does not match
the configured data ethertype, receive_data returns the
invalid_frame_size error to its caller, while the background receiver
loop continues without invoking the callback. -/
theorem ethertype_filter_spec (proto : Nat) (buffer : List Nat)
    (hv : (parseFrame buffer).valid = true)
    (hm : (parseFrame buffer).etherType ≠ proto) :
    receive_data_step proto buffer = .error .invalidFrameSize ∧
    receiver_loop_step proto buffer = none := by
  unfold receive_data_step receiver_loop_step
  rw [hv]
  simp [hm]

/-- Witness for the ethertype filter spec at a concrete frame. -/
theorem ethertype_filter_spec_witness :
    receive_data_step 0x88B5
        [0, 0, 0, 0, 0, 0, 1, 2, 3, 4, 5, 6, 0xAA, 0xAA, 9, 9]
      = .error .invalidFrameSize ∧
    receiver_loop_step 0x88B5
        [0, 0, 0, 0, 0, 0, 1, 2, 3, 4, 5, 6, 0xAA, 0xAA, 9, 9]
      = none :=
  ethertype_filter_spec 0x88B5
    [0, 0, 0, 0, 0, 0, 1, 2, 3, 4, 5, 6, 0xAA, 0xAA, 9, 9]
    (by decide) (by decide)

/-- C9 counterexample: the result of interface_info::query on the name
with a space depends on the abstracted kernel interaction (it can even
succeed if the kernel answers positively), so such names are not rejected
up front with a not-found error. -/
theorem interface_query_whitespace_reaches_kernel :
    interface_query
        (fun n => .ok ⟨n, 1, [0, 0, 0, 0, 0, 0], 1500, true, false⟩)
        "eth 0".toList
      = .ok ⟨"eth 0".toList, 1, [0, 0, 0, 0, 0, 0], 1500, true, false⟩ ∧
    interface_query (fun _ => .error .interfaceQueryFailed) "eth 0".toList
      = .error .interfaceQueryFailed := by
  constructor <;> rfl

/-- C9 amended: query rejects exactly the empty and the overlength
(length at or above IFNAMSIZ) names before any kernel interaction,
returning interface_not_found regardless of what the kernel would
answer; all other names, including those containing whitespace or path
separators, proceed to the kernel lookup. -/
theorem interface_query_name_validation
    (kernel : List Char → Except ErrorCodeT InterfaceInfo)
    (name : List Char) :
    (name.length = 0 ∨ ifnamsiz ≤ name.length →
      interface_query kernel name = .error .interfaceNotFound) ∧
    (name.length ≠ 0 → name.length < ifnamsiz →
      interface_query kernel name = kernel name) := by
  constructor
  · intro h
    unfold interface_query
    rw [if_pos h]
  · intro h1 h2
    unfold interface_query
    rw [if_neg (by omega)]

/-- Witness for the interface name validation at concrete names. -/
theorem interface_query_name_validation_witness :
    interface_query (fun _ => .error .timeout) [] = .error .interfaceNotFound ∧
    interface_query (fun _ => .error .timeout) "0123456789abcdef".toList
      = .error .interfaceNotFound ∧
    interface_query (fun _ => .error .timeout) "lo".toList = .error .timeout :=
  ⟨(interface_query_name_validation (fun _ => .error .timeout) []).1
      (Or.inl rfl),
   (interface_query_name_validation (fun _ => .error .timeout)
      "0123456789abcdef".toList).1 (Or.inr (by decide)),
   (interface_query_name_validation (fun _ => .error .timeout)
      "lo".toList).2 (by decide) (by decide)⟩

/-- C10: the parser masks the received TCI, so vlan_id is always at most
4095 and vlan_priority at most 7, whatever bytes the borrowed range
holds; both return 0 when the parser is invalid, the frame is untagged,
or the range is shorter than 16 bytes. -/
theorem vlan_decode_masked_bounds (data : List Nat) :
    (parseFrame data).vlanId ≤ 4095 ∧
    (parseFrame data).vlanPriority ≤ 7 ∧
    ((parseFrame data).valid = false ∨ (parseFrame data).hasVlanTag = false ∨
        data.length < 16 →
      (parseFrame data).vlanId = 0 ∧ (parseFrame data).vlanPriority = 0) := by
  refine ⟨?_, ?_, fun h => ?_⟩
  · unfold FrameParse.vlanId
    split
    · omega
    · have := Nat.mod_lt (256 * (parseFrame data).data.getD 14 0 +
        (parseFrame data).data.getD 15 0) (y := 4096) (by norm_num)
      omega
  · unfold FrameParse.vlanPriority
    split
    · omega
    · have := Nat.mod_lt ((256 * (parseFrame data).data.getD 14 0 +
        (parseFrame data).data.getD 15 0) / 8192) (y := 8) (by norm_num)
      omega
  · unfold FrameParse.vlanId FrameParse.vlanPriority
    rw [parseFrame_data]
    rw [if_pos h, if_pos h]
    exact ⟨rfl, rfl⟩

/-- Witness for the masked TCI bounds at a concrete range. -/
theorem vlan_decode_masked_bounds_witness :
    (parseFrame []).vlanId = 0 ∧ (parseFrame []).vlanPriority = 0 :=
  (vlan_decode_masked_bounds []).2.2 (Or.inl (by decide))

/-- C3 amended: a range shorter than 14 bytes parses as invalid; a range
of 14 or more bytes with 0x8100 at offsets 12..13 but shorter than 18
bytes parses as invalid (and at 18 or more bytes as valid tagged); on an
invalid parser, dest_mac and src_mac return the null MAC, ether_type,
vlan_id, vlan_priority and payload_size return zero and payload the
empty range, while header_size keeps returning 14, or 18 when the 0x8100
type field was seen, with no validity guard. -/
theorem parse_validation_spec (data : List Nat) :
    (data.length < 14 → (parseFrame data).valid = false) ∧
    (14 ≤ data.length → 256 * data.getD 12 0 + data.getD 13 0 = 0x8100 →
      data.length < 18 →
      (parseFrame data).valid = false ∧ (parseFrame data).hasVlanTag = true) ∧
    (14 ≤ data.length → 256 * data.getD 12 0 + data.getD 13 0 = 0x8100 →
      18 ≤ data.length →
      (parseFrame data).valid = true ∧ (parseFrame data).hasVlanTag = true) ∧
    ((parseFrame data).valid = false →
      (parseFrame data).destMac = List.replicate 6 0 ∧
      (parseFrame data).srcMac = List.replicate 6 0 ∧
      (parseFrame data).etherType = 0 ∧
      (parseFrame data).vlanId = 0 ∧
      (parseFrame data).vlanPriority = 0 ∧
      (parseFrame data).payload = [] ∧
      (parseFrame data).payloadSize = 0 ∧
      (parseFrame data).headerSize =
        (if (parseFrame data).hasVlanTag then 18 else 14)) := by
  refine ⟨fun h => ?_, fun h1 h2 h3 => ?_, fun h1 h2 h3 => ?_, fun h => ?_⟩
  · unfold parseFrame eth_header_size
    rw [if_pos (by omega)]
  · unfold parseFrame eth_header_size eth_p_8021q eth_vlan_header_size
    rw [if_neg (by omega), if_pos h2, if_pos (by omega)]
    exact ⟨rfl, rfl⟩
  · unfold parseFrame eth_header_size eth_p_8021q eth_vlan_header_size
    rw [if_neg (by omega), if_pos h2, if_neg (by omega)]
    exact ⟨rfl, rfl⟩
  · unfold FrameParse.destMac FrameParse.srcMac FrameParse.etherType
      FrameParse.vlanId FrameParse.vlanPriority FrameParse.payload
      FrameParse.payloadSize FrameParse.headerSize
    rw [if_pos (Or.inl h), if_pos (Or.inl h), if_pos h, if_pos h,
      if_pos (Or.inl h), if_pos (Or.inl h), if_pos h]
    exact ⟨rfl, rfl, rfl, rfl, rfl, rfl, rfl, rfl⟩

/-- Witness for the parse validation spec at concrete ranges. -/
theorem parse_validation_spec_witness :
    (parseFrame [1, 2, 3]).valid = false ∧
    ((parseFrame (List.replicate 12 7 ++ [0x81, 0x00, 5, 5, 5])).valid = false ∧
      (parseFrame (List.replicate 12 7 ++ [0x81, 0x00, 5, 5, 5])).hasVlanTag
        = true) ∧
    ((parseFrame (List.replicate 12 7 ++ [0x81, 0x00, 5, 5, 5, 5])).valid
        = true ∧
      (parseFrame (List.replicate 12 7 ++ [0x81, 0x00, 5, 5, 5, 5])).hasVlanTag
        = true) ∧
    (parseFrame [1, 2, 3]).etherType = 0 :=
  ⟨(parse_validation_spec [1, 2, 3]).1 (by decide),
   (parse_validation_spec _).2.1 (by decide) (by decide) (by decide),
   (parse_validation_spec _).2.2.1 (by decide) (by decide) (by decide),
   ((parse_validation_spec [1, 2, 3]).2.2.2
      ((parse_validation_spec [1, 2, 3]).1 (by decide))).2.2.1⟩

/-- C4 counterexample: stripping the tag removes bytes 12..15, not bytes
14..17 as the claim states: on a concrete 18-byte tagged frame the strip
result carries the inner ethertype 88 B5 at offsets 12..13, while the
frame with bytes 14..17 removed would still carry the TPID 81 00 there. -/
theorem strip_vlan_tag_removed_bytes_counterexample :
    strip_vlan_tag [0xAA, 0xBB, 0xCC, 0xDD, 0xEE, 0xFF,
                    0x11, 0x22, 0x33, 0x44, 0x55, 0x66,
                    0x81, 0x00, 0xE0, 0x0A, 0x88, 0xB5]
      = .ok [0xAA, 0xBB, 0xCC, 0xDD, 0xEE, 0xFF,
             0x11, 0x22, 0x33, 0x44, 0x55, 0x66, 0x88, 0xB5] ∧
    [0xAA, 0xBB, 0xCC, 0xDD, 0xEE, 0xFF,
     0x11, 0x22, 0x33, 0x44, 0x55, 0x66,
     0x81, 0x00, 0xE0, 0x0A, 0x88, 0xB5].take 14 ++
      [0xAA, 0xBB, 0xCC, 0xDD, 0xEE, 0xFF,
       0x11, 0x22, 0x33, 0x44, 0x55, 0x66,
       0x81, 0x00, 0xE0, 0x0A, 0x88, 0xB5].drop 18
      = [0xAA, 0xBB, 0xCC, 0xDD, 0xEE, 0xFF,
         0x11, 0x22, 0x33, 0x44, 0x55, 0x66, 0x81, 0x00] ∧
    [0xAA, 0xBB, 0xCC, 0xDD, 0xEE, 0xFF,
     0x11, 0x22, 0x33, 0x44, 0x55, 0x66, 0x88, 0xB5] ≠
      [0xAA, 0xBB, 0xCC, 0xDD, 0xEE, 0xFF,
       0x11, 0x22, 0x33, 0x44, 0x55, 0x66, 0x81, 0x00] := by
  decide

/-- is_vlan_tagged holds exactly on ranges of at least 14 bytes with
0x8100 at offsets 12..13. -/
theorem is_vlan_tagged_iff (f : List Nat) :
    is_vlan_tagged f = true ↔
      14 ≤ f.length ∧ 256 * f.getD 12 0 + f.getD 13 0 = 0x8100 := by
  unfold is_vlan_tagged eth_header_size eth_p_8021q
  split
  · simp only [Bool.false_eq_true, false_iff]
    omega
  · simp only [decide_eq_true_eq]
    omega

/-- The length of a frame with its tag bytes 12..15 removed. -/
theorem stripped_length (f : List Nat) (h : 18 ≤ f.length) :
    (f.take 12 ++ f.drop 16).length = f.length - 4 := by
  simp only [List.length_append, List.length_take, List.length_drop]
  omega

/-- Low bytes of the stripped frame coincide with the original. -/
theorem stripped_getD_low (f : List Nat) (h : 18 ≤ f.length) (i : Nat)
    (hi : i < 12) : (f.take 12 ++ f.drop 16).getD i 0 = f.getD i 0 := by
  have hlt : (f.take 12).length = 12 := by
    rw [List.length_take]
    omega
  rw [List.getD_eq_getElem?_getD, List.getD_eq_getElem?_getD,
    List.getElem?_append, if_pos (by rw [hlt]; omega), List.getElem?_take,
    if_pos hi]

/-- Bytes of the stripped frame from offset 12 on come from four bytes
further down the original. -/
theorem stripped_getD_high (f : List Nat) (h : 18 ≤ f.length) (i : Nat)
    (hi : 12 ≤ i) : (f.take 12 ++ f.drop 16).getD i 0 = f.getD (i + 4) 0 := by
  have hlt : (f.take 12).length = 12 := by
    rw [List.length_take]
    omega
  rw [List.getD_eq_getElem?_getD, List.getD_eq_getElem?_getD,
    List.getElem?_append_right (by rw [hlt]; omega), hlt, List.getElem?_drop]
  have hidx : 16 + (i - 12) = i + 4 := by omega
  rw [hidx]

/-- The strip output dst ++ src ++ inner-type bytes ++ tail equals the
original with bytes 12..15 removed. -/
theorem strip_concat (f : List Nat) (h : 18 ≤ f.length) :
    f.take 12 ++ [f.getD 16 0, f.getD 17 0] ++ f.drop 18 =
      f.take 12 ++ f.drop 16 := by
  have h16 : (16 : Nat) < f.length := by omega
  have h17 : (17 : Nat) < f.length := by omega
  rw [List.getD_eq_getElem _ _ h16, List.getD_eq_getElem _ _ h17,
    List.drop_eq_getElem_cons h16, List.drop_eq_getElem_cons h17]
  simp

/-- dest_mac of a valid parse over a range of at least 6 bytes. -/
theorem destMac_mk (d : List Nat) (t : Bool) (h : 6 ≤ d.length) :
    FrameParse.destMac ⟨d, true, t⟩ = d.take 6 := by
  unfold FrameParse.destMac
  simp only [Bool.true_eq_false, false_or]
  rw [if_neg (by omega)]

/-- src_mac of a valid parse over a range of at least 12 bytes. -/
theorem srcMac_mk (d : List Nat) (t : Bool) (h : 12 ≤ d.length) :
    FrameParse.srcMac ⟨d, true, t⟩ = (d.drop 6).take 6 := by
  unfold FrameParse.srcMac
  simp only [Bool.true_eq_false, false_or]
  rw [if_neg (by omega)]

/-- ether_type of a valid untagged parse. -/
theorem etherType_mk_untagged (d : List Nat) :
    FrameParse.etherType ⟨d, true, false⟩
      = 256 * d.getD 12 0 + d.getD 13 0 := by
  unfold FrameParse.etherType
  simp only [Bool.true_eq_false, Bool.false_eq_true, if_false]

/-- ether_type of a valid tagged parse over at least 18 bytes. -/
theorem etherType_mk_tagged (d : List Nat) (h : 18 ≤ d.length) :
    FrameParse.etherType ⟨d, true, true⟩
      = 256 * d.getD 16 0 + d.getD 17 0 := by
  unfold FrameParse.etherType
  simp only [Bool.true_eq_false, if_false, eq_self_iff_true, if_true]
  rw [if_neg (by omega)]

/-- payload of a valid untagged parse. -/
theorem payload_mk_untagged (d : List Nat) :
    FrameParse.payload ⟨d, true, false⟩
      = if d.length ≤ 14 then [] else d.drop 14 := by
  unfold FrameParse.payload FrameParse.headerSize eth_header_size
    eth_vlan_header_size
  simp only [Bool.true_eq_false, Bool.false_eq_true, if_false]

/-- payload of a valid tagged parse. -/
theorem payload_mk_tagged (d : List Nat) :
    FrameParse.payload ⟨d, true, true⟩
      = if d.length ≤ 18 then [] else d.drop 18 := by
  unfold FrameParse.payload FrameParse.headerSize eth_header_size
    eth_vlan_header_size
  simp only [Bool.true_eq_false, if_false, eq_self_iff_true, if_true]

/-- C4 amended: untagged input is returned unchanged; a tagged frame
shorter than 18 bytes fails with invalid_frame_size; a tagged frame of at
least 18 bytes is returned with bytes 12..15 (TPID and TCI) removed, and
whenever the inner ethertype is not itself 0x8100 the stripped frame
parses as a valid untagged frame with the same dst, src, inner ethertype
and payload as the original. -/
theorem strip_vlan_tag_spec (f : List Nat) :
    (is_vlan_tagged f = false → strip_vlan_tag f = .ok f) ∧
    (is_vlan_tagged f = true → f.length < 18 →
      strip_vlan_tag f = .error .invalidFrameSize) ∧
    (is_vlan_tagged f = true → 18 ≤ f.length →
      strip_vlan_tag f = .ok (f.take 12 ++ f.drop 16) ∧
      (256 * f.getD 16 0 + f.getD 17 0 ≠ 0x8100 →
        (parseFrame (f.take 12 ++ f.drop 16)).valid = true ∧
        (parseFrame (f.take 12 ++ f.drop 16)).hasVlanTag = false ∧
        (parseFrame (f.take 12 ++ f.drop 16)).destMac
          = (parseFrame f).destMac ∧
        (parseFrame (f.take 12 ++ f.drop 16)).srcMac = (parseFrame f).srcMac ∧
        (parseFrame (f.take 12 ++ f.drop 16)).etherType
          = (parseFrame f).etherType ∧
        (parseFrame (f.take 12 ++ f.drop 16)).payload
          = (parseFrame f).payload)) := by
  refine ⟨fun h => ?_, fun h hlen => ?_, fun h hlen => ?_⟩
  · unfold strip_vlan_tag
    rw [if_pos h]
  · unfold strip_vlan_tag eth_vlan_header_size
    rw [if_neg (by rw [h]; simp), if_pos hlen]
  · obtain ⟨hflen, htf⟩ := (is_vlan_tagged_iff f).mp h
    have hstrip : strip_vlan_tag f = .ok (f.take 12 ++ f.drop 16) := by
      unfold strip_vlan_tag eth_vlan_header_size
      rw [if_neg (by rw [h]; simp), if_neg (by omega), strip_concat f hlen]
    refine ⟨hstrip, fun hinner => ?_⟩
    have hglen : (f.take 12 ++ f.drop 16).length = f.length - 4 :=
      stripped_length f hlen
    have hg12 : (f.take 12 ++ f.drop 16).getD 12 0 = f.getD 16 0 :=
      stripped_getD_high f hlen 12 (by omega)
    have hg13 : (f.take 12 ++ f.drop 16).getD 13 0 = f.getD 17 0 :=
      stripped_getD_high f hlen 13 (by omega)
    have hpg : parseFrame (f.take 12 ++ f.drop 16) =
        ⟨f.take 12 ++ f.drop 16, true, false⟩ := by
      unfold parseFrame eth_header_size eth_p_8021q
      rw [if_neg (by rw [hglen]; omega), hg12, hg13, if_neg hinner]
    have hpf : parseFrame f = ⟨f, true, true⟩ := by
      unfold parseFrame eth_header_size eth_p_8021q eth_vlan_header_size
      rw [if_neg (by omega), if_pos htf, if_neg (by omega)]
    have htake12 : (f.take 12).length = 12 := by
      rw [List.length_take]
      omega
    refine ⟨by rw [hpg], by rw [hpg], ?_, ?_, ?_, ?_⟩
    · rw [hpg, hpf, destMac_mk _ _ (by rw [hglen]; omega),
        destMac_mk _ _ (by omega),
        List.take_append_of_le_length (by rw [htake12]; omega),
        List.take_take]
      norm_num
    · rw [hpg, hpf, srcMac_mk _ _ (by rw [hglen]; omega),
        srcMac_mk _ _ (by omega),
        List.drop_append_of_le_length (by rw [htake12]; omega),
        List.drop_take,
        List.take_append_of_le_length
          (by simp only [List.length_take, List.length_drop]; omega),
        List.take_take]
      norm_num
    · rw [hpg, hpf, etherType_mk_untagged, etherType_mk_tagged _ (by omega),
        hg12, hg13]
    · rw [hpg, hpf, payload_mk_untagged, payload_mk_tagged]
      by_cases hle : f.length ≤ 18
      · rw [if_pos (by rw [hglen]; omega), if_pos (by omega)]
      · rw [if_neg (by rw [hglen]; omega), if_neg (by omega),
          List.drop_append_eq_append_drop,
          List.drop_of_length_le (by rw [htake12]; omega), htake12,
          List.drop_drop]
        simp

/-- Witness for the strip spec at concrete frames. -/
theorem strip_vlan_tag_spec_witness :
    strip_vlan_tag [0, 0, 0, 0, 0, 0, 1, 1, 1, 1, 1, 1, 0x08, 0x00]
      = .ok [0, 0, 0, 0, 0, 0, 1, 1, 1, 1, 1, 1, 0x08, 0x00] ∧
    strip_vlan_tag [0, 0, 0, 0, 0, 0, 1, 1, 1, 1, 1, 1, 0x81, 0x00, 7, 7, 7]
      = .error .invalidFrameSize ∧
    strip_vlan_tag
        [0, 0, 0, 0, 0, 0, 1, 1, 1, 1, 1, 1, 0x81, 0x00, 0xE0, 0x0A,
         0x08, 0x00, 9]
      = .ok ([0, 0, 0, 0, 0, 0, 1, 1, 1, 1, 1, 1, 0x81, 0x00, 0xE0, 0x0A,
              0x08, 0x00, 9].take 12 ++
             [0, 0, 0, 0, 0, 0, 1, 1, 1, 1, 1, 1, 0x81, 0x00, 0xE0, 0x0A,
              0x08, 0x00, 9].drop 16) :=
  ⟨(strip_vlan_tag_spec _).1 (by decide),
   (strip_vlan_tag_spec _).2.1 (by decide) (by decide),
   ((strip_vlan_tag_spec _).2.2 (by decide) (by decide)).1⟩


/-- hexToInt recovers the value of a rendered hex digit. -/
theorem hexToInt_hexDigit (d : Nat) (h : d < 16) :
    hexToInt (hexDigit d) = (d : Int) := by
  interval_cases d <;> decide

/-- Specialisation of the digit recovery to the mod-16 arguments used by
mac_to_string. -/
theorem hexToInt_hexDigit_mod (x : Nat) :
    hexToInt (hexDigit (x % 16)) = ((x % 16 : Nat) : Int) :=
  hexToInt_hexDigit _ (Nat.mod_lt _ (by norm_num))

/-- Rendered digits are lowercase hex characters. -/
theorem hexDigit_lower (d : Nat) (h : d < 16) :
    isLowerHexChar (hexDigit d) = true := by
  interval_cases d <;> decide

/-- hexToInt is non-negative on hex characters. -/
theorem hexToInt_nonneg (c : Char) (h : isHexChar c = true) :
    0 ≤ hexToInt c := by
  rw [isHexChar, decide_eq_true_eq] at h
  unfold hexToInt
  split_ifs with h1 h2 h3
  · have hn : 48 ≤ c.toNat := h1.1
    omega
  · have hn : 97 ≤ c.toNat := h2.1
    omega
  · have hn : 65 ≤ c.toNat := h3.1
    omega
  · rcases h with h' | h' | h'
    · exact absurd h' h1
    · exact absurd h' h2
    · exact absurd h' h3

/-- hexToInt is negative exactly on non-hex characters. -/
theorem hexToInt_neg (c : Char) (h : isHexChar c = false) : hexToInt c < 0 := by
  rw [isHexChar, decide_eq_false_iff_not] at h
  unfold hexToInt
  rw [if_neg (fun hc => h (Or.inl hc)),
    if_neg (fun hc => h (Or.inr (Or.inl hc))),
    if_neg (fun hc => h (Or.inr (Or.inr hc)))]
  decide

/-- A character whose hexToInt is non-negative is a hex character. -/
theorem hex_ok_of_not_neg (c : Char) (h : ¬ hexToInt c < 0) :
    isHexChar c = true := by
  cases hh : isHexChar c
  · exact absurd (hexToInt_neg c hh) h
  · rfl

/-- A character whose hexToInt is negative is not a hex character. -/
theorem hex_fail_of_neg (c : Char) (h : hexToInt c < 0) :
    isHexChar c = false := by
  cases hh : isHexChar c
  · rfl
  · exact absurd h (not_lt.mpr (hexToInt_nonneg c hh))

/-- The from_string loop accepts the end of the string after six bytes. -/
theorem loop_exit (sep : Char) (i : Nat) (acc : List Nat) :
    fromStringLoop sep [] i 6 acc = .ok acc := rfl

/-- One separator step of the from_string loop. -/
theorem loop_sep (sep c : Char) (rest : List Char) (i byteIdx : Nat)
    (acc : List Nat) (hb : byteIdx < 6) (hi : i % 3 = 2) (hc : c = sep) :
    fromStringLoop sep (c :: rest) i byteIdx acc =
      fromStringLoop sep rest (i + 1) byteIdx acc := by
  rw [fromStringLoop.eq_def]
  dsimp only
  rw [if_pos hb, if_pos hi, if_neg (by simp [hc])]

/-- A mismatching separator aborts the from_string loop. -/
theorem loop_sep_err (sep c : Char) (rest : List Char) (i byteIdx : Nat)
    (acc : List Nat) (hb : byteIdx < 6) (hi : i % 3 = 2) (hc : c ≠ sep) :
    fromStringLoop sep (c :: rest) i byteIdx acc
      = .error .invalidMacAddress := by
  rw [fromStringLoop.eq_def]
  dsimp only
  rw [if_pos hb, if_pos hi, if_pos hc]

/-- One hex-pair step of the from_string loop. -/
theorem loop_pair (sep c c' : Char) (rest : List Char) (i byteIdx : Nat)
    (acc : List Nat) (hb : byteIdx < 6) (hi : i % 3 ≠ 2)
    (hc : ¬ hexToInt c < 0) (hc' : ¬ hexToInt c' < 0) :
    fromStringLoop sep (c :: c' :: rest) i byteIdx acc =
      fromStringLoop sep rest (i + 2) (byteIdx + 1)
        (acc ++ [(hexToInt c).toNat * 16 + (hexToInt c').toNat]) := by
  rw [fromStringLoop.eq_def]
  dsimp only
  rw [if_pos hb, if_neg hi, if_neg (not_or.mpr ⟨hc, hc'⟩)]

/-- A non-hex character in a pair aborts the from_string loop. -/
theorem loop_pair_err (sep c c' : Char) (rest : List Char) (i byteIdx : Nat)
    (acc : List Nat) (hb : byteIdx < 6) (hi : i % 3 ≠ 2)
    (hc : hexToInt c < 0 ∨ hexToInt c' < 0) :
    fromStringLoop sep (c :: c' :: rest) i byteIdx acc
      = .error .invalidMacAddress := by
  rw [fromStringLoop.eq_def]
  dsimp only
  rw [if_pos hb, if_neg hi, if_pos hc]

/-- Every abort of the from_string loop carries invalid_mac_address. -/
theorem fromStringLoop_err_shape (n : Nat) : ∀ (sep : Char) (l : List Char)
    (i b : Nat) (acc : List Nat), l.length ≤ n →
    (fromStringLoop sep l i b acc).isOk = true ∨
      fromStringLoop sep l i b acc = .error .invalidMacAddress := by
  induction n with
  | zero =>
    intro sep l i b acc hl
    have : l = [] := List.eq_nil_of_length_eq_zero (by omega)
    subst this
    rw [fromStringLoop.eq_def]
    dsimp only
    split_ifs
    · right
      rfl
    · left
      rfl
  | succ n ih =>
    intro sep l i b acc hl
    match l with
    | [] =>
      rw [fromStringLoop.eq_def]
      dsimp only
      split_ifs
      · right
        rfl
      · left
        rfl
    | c :: rest =>
      rw [fromStringLoop.eq_def]
      dsimp only
      split_ifs with hb hsep hcs
      · right
        rfl
      · exact ih sep rest (i + 1) b acc (by simp at hl ⊢; omega)
      · match rest with
        | [] => right; rfl
        | c' :: rest' =>
          dsimp only
          split_ifs with hhex
          · right
            rfl
          · exact ih sep rest' (i + 2) (b + 1) _ (by simp at hl ⊢; omega)
      · right
        rfl
      · left
        rfl

/-- Every failure of mac_address::from_string is invalid_mac_address. -/
theorem mac_from_string_err_shape (s : List Char) :
    (mac_from_string s).isOk = true ∨
      mac_from_string s = .error .invalidMacAddress := by
  unfold mac_from_string
  split_ifs
  · right
    rfl
  · right
    rfl
  · exact fromStringLoop_err_shape s.length _ s 0 0 [] le_rfl

/-- Parsing the rendered form of six bytes recovers the bytes. -/
theorem mac_roundtrip_aux (b0 b1 b2 b3 b4 b5 : Nat)
    (h0 : b0 < 256) (h1 : b1 < 256) (h2 : b2 < 256)
    (h3 : b3 < 256) (h4 : b4 < 256) (h5 : b5 < 256) :
    mac_from_string (mac_to_string [b0, b1, b2, b3, b4, b5])
      = .ok [b0, b1, b2, b3, b4, b5] := by
  have hnn : ∀ x : Nat, ¬ hexToInt (hexDigit (x % 16)) < 0 := fun x => by
    rw [hexToInt_hexDigit_mod]
    omega
  have htn : ∀ x : Nat, (hexToInt (hexDigit (x % 16))).toNat = x % 16 :=
    fun x => by
      rw [hexToInt_hexDigit_mod]
      exact Int.toNat_natCast _
  simp only [mac_to_string]
  unfold mac_from_string
  rw [if_neg (by simp), if_neg (by simp)]
  rw [loop_pair _ _ _ _ _ _ _ (by norm_num) (by norm_num) (hnn _) (hnn _),
    loop_sep _ _ _ _ _ _ (by norm_num) (by norm_num) (by rfl),
    loop_pair _ _ _ _ _ _ _ (by norm_num) (by norm_num) (hnn _) (hnn _),
    loop_sep _ _ _ _ _ _ (by norm_num) (by norm_num) (by rfl),
    loop_pair _ _ _ _ _ _ _ (by norm_num) (by norm_num) (hnn _) (hnn _),
    loop_sep _ _ _ _ _ _ (by norm_num) (by norm_num) (by rfl),
    loop_pair _ _ _ _ _ _ _ (by norm_num) (by norm_num) (hnn _) (hnn _),
    loop_sep _ _ _ _ _ _ (by norm_num) (by norm_num) (by rfl),
    loop_pair _ _ _ _ _ _ _ (by norm_num) (by norm_num) (hnn _) (hnn _),
    loop_sep _ _ _ _ _ _ (by norm_num) (by norm_num) (by rfl),
    loop_pair _ _ _ _ _ _ _ (by norm_num) (by norm_num) (hnn _) (hnn _),
    loop_exit]
  simp only [List.nil_append, List.cons_append, htn]
  refine congrArg Except.ok ?_
  simp only [List.cons.injEq, and_true]
  refine ⟨?_, ?_, ?_, ?_, ?_, ?_⟩ <;> omega

/-- The rendered form of any six bytes is a 17-character lowercase
colon-separated string. -/
theorem mac_render_shape (b0 b1 b2 b3 b4 b5 : Nat) :
    lowercaseColonRendered (mac_to_string [b0, b1, b2, b3, b4, b5])
      = true := by
  have hl : ∀ x : Nat, isLowerHexChar (hexDigit (x % 16)) = true :=
    fun x => hexDigit_lower _ (Nat.mod_lt _ (by norm_num))
  simp [mac_to_string, lowercaseColonRendered, hl]


/-- from_string succeeds exactly on well-formed MAC strings. -/
theorem mac_isOk_iff (s : List Char) :
    (mac_from_string s).isOk = true ↔ macStringWellFormed s = true := by
  by_cases hlen : s.length = 17
  case neg =>
    unfold mac_from_string
    rw [if_pos hlen]
    simp [macStringWellFormed, hlen, Except.isOk, Except.toBool]
  case pos =>
    rcases s with _ | ⟨c0, s⟩
    · simp only [List.length_nil] at hlen
      omega
    rcases s with _ | ⟨c1, s⟩
    · simp only [List.length_cons, List.length_nil] at hlen
      omega
    rcases s with _ | ⟨c2, s⟩
    · simp only [List.length_cons, List.length_nil] at hlen
      omega
    rcases s with _ | ⟨c3, s⟩
    · simp only [List.length_cons, List.length_nil] at hlen
      omega
    rcases s with _ | ⟨c4, s⟩
    · simp only [List.length_cons, List.length_nil] at hlen
      omega
    rcases s with _ | ⟨c5, s⟩
    · simp only [List.length_cons, List.length_nil] at hlen
      omega
    rcases s with _ | ⟨c6, s⟩
    · simp only [List.length_cons, List.length_nil] at hlen
      omega
    rcases s with _ | ⟨c7, s⟩
    · simp only [List.length_cons, List.length_nil] at hlen
      omega
    rcases s with _ | ⟨c8, s⟩
    · simp only [List.length_cons, List.length_nil] at hlen
      omega
    rcases s with _ | ⟨c9, s⟩
    · simp only [List.length_cons, List.length_nil] at hlen
      omega
    rcases s with _ | ⟨c10, s⟩
    · simp only [List.length_cons, List.length_nil] at hlen
      omega
    rcases s with _ | ⟨c11, s⟩
    · simp only [List.length_cons, List.length_nil] at hlen
      omega
    rcases s with _ | ⟨c12, s⟩
    · simp only [List.length_cons, List.length_nil] at hlen
      omega
    rcases s with _ | ⟨c13, s⟩
    · simp only [List.length_cons, List.length_nil] at hlen
      omega
    rcases s with _ | ⟨c14, s⟩
    · simp only [List.length_cons, List.length_nil] at hlen
      omega
    rcases s with _ | ⟨c15, s⟩
    · simp only [List.length_cons, List.length_nil] at hlen
      omega
    rcases s with _ | ⟨c16, s⟩
    · simp only [List.length_cons, List.length_nil] at hlen
      omega
    rcases s with _ | ⟨c17, s⟩
    case cons =>
      simp only [List.length_cons, List.length_nil] at hlen
      omega
    have hg : ([c0, c1, c2, c3, c4, c5, c6, c7, c8, c9, c10, c11, c12, c13,
        c14, c15, c16] : List Char).getD 2 ' ' = c2 := by
      simp
    unfold mac_from_string
    rw [if_neg (by simp), hg]
    by_cases hsepok : c2 = ':' ∨ c2 = '-'
    case neg =>
      rw [if_pos (not_or.mp hsepok)]
      simp [macStringWellFormed, (not_or.mp hsepok).1, (not_or.mp hsepok).2,
        Except.isOk, Except.toBool]
    case pos =>
      rw [if_neg (by rcases hsepok with h | h <;> simp [h])]
      by_cases hc01 : hexToInt c0 < 0 ∨ hexToInt c1 < 0
      · rw [loop_pair_err _ _ _ _ _ _ _ (by norm_num) (by norm_num) hc01]
        rcases hc01 with h | h <;>
          simp [macStringWellFormed, hex_fail_of_neg _ h, Except.isOk, Except.toBool]
      · rw [loop_pair _ _ _ _ _ _ _ (by norm_num) (by norm_num)
          (not_or.mp hc01).1 (not_or.mp hc01).2,
          loop_sep _ _ _ _ _ _ (by norm_num) (by norm_num) rfl]
        by_cases hc34 : hexToInt c3 < 0 ∨ hexToInt c4 < 0
        · rw [loop_pair_err _ _ _ _ _ _ _ (by norm_num) (by norm_num) hc34]
          rcases hc34 with h | h <;>
            simp [macStringWellFormed, hex_fail_of_neg _ h, Except.isOk, Except.toBool]
        · rw [loop_pair _ _ _ _ _ _ _ (by norm_num) (by norm_num)
            (not_or.mp hc34).1 (not_or.mp hc34).2]
          by_cases hs5 : c5 = c2
          case neg =>
            rw [loop_sep_err _ _ _ _ _ _ (by norm_num) (by norm_num) hs5]
            simp [macStringWellFormed, hs5, Except.isOk, Except.toBool]
          case pos =>
            rw [loop_sep _ _ _ _ _ _ (by norm_num) (by norm_num) hs5]
            by_cases hc67 : hexToInt c6 < 0 ∨ hexToInt c7 < 0
            · rw [loop_pair_err _ _ _ _ _ _ _ (by norm_num) (by norm_num) hc67]
              rcases hc67 with h | h <;>
                simp [macStringWellFormed, hex_fail_of_neg _ h, Except.isOk, Except.toBool]
            · rw [loop_pair _ _ _ _ _ _ _ (by norm_num) (by norm_num)
                (not_or.mp hc67).1 (not_or.mp hc67).2]
              by_cases hs8 : c8 = c2
              case neg =>
                rw [loop_sep_err _ _ _ _ _ _ (by norm_num) (by norm_num) hs8]
                simp [macStringWellFormed, hs8, Except.isOk, Except.toBool]
              case pos =>
                rw [loop_sep _ _ _ _ _ _ (by norm_num) (by norm_num) hs8]
                by_cases hc910 : hexToInt c9 < 0 ∨ hexToInt c10 < 0
                · rw [loop_pair_err _ _ _ _ _ _ _ (by norm_num) (by norm_num)
                    hc910]
                  rcases hc910 with h | h <;>
                    simp [macStringWellFormed, hex_fail_of_neg _ h, Except.isOk, Except.toBool]
                · rw [loop_pair _ _ _ _ _ _ _ (by norm_num) (by norm_num)
                    (not_or.mp hc910).1 (not_or.mp hc910).2]
                  by_cases hs11 : c11 = c2
                  case neg =>
                    rw [loop_sep_err _ _ _ _ _ _ (by norm_num) (by norm_num)
                      hs11]
                    simp [macStringWellFormed, hs11, Except.isOk, Except.toBool]
                  case pos =>
                    rw [loop_sep _ _ _ _ _ _ (by norm_num) (by norm_num) hs11]
                    by_cases hc1213 : hexToInt c12 < 0 ∨ hexToInt c13 < 0
                    · rw [loop_pair_err _ _ _ _ _ _ _ (by norm_num)
                        (by norm_num) hc1213]
                      rcases hc1213 with h | h <;>
                        simp [macStringWellFormed, hex_fail_of_neg _ h,
                          Except.isOk, Except.toBool]
                    · rw [loop_pair _ _ _ _ _ _ _ (by norm_num) (by norm_num)
                        (not_or.mp hc1213).1 (not_or.mp hc1213).2]
                      by_cases hs14 : c14 = c2
                      case neg =>
                        rw [loop_sep_err _ _ _ _ _ _ (by norm_num)
                          (by norm_num) hs14]
                        simp [macStringWellFormed, hs14, Except.isOk, Except.toBool]
                      case pos =>
                        rw [loop_sep _ _ _ _ _ _ (by norm_num) (by norm_num)
                          hs14]
                        by_cases hc1516 : hexToInt c15 < 0 ∨ hexToInt c16 < 0
                        · rw [loop_pair_err _ _ _ _ _ _ _ (by norm_num)
                            (by norm_num) hc1516]
                          rcases hc1516 with h | h <;>
                            simp [macStringWellFormed, hex_fail_of_neg _ h,
                              Except.isOk, Except.toBool]
                        · rw [loop_pair _ _ _ _ _ _ _ (by norm_num)
                            (by norm_num) (not_or.mp hc1516).1
                            (not_or.mp hc1516).2, loop_exit]
                          rcases hsepok with h2 | h2 <;>
                            simp [macStringWellFormed, h2, hs5, hs8, hs11,
                              hs14, Except.isOk,
                              hex_ok_of_not_neg _ (not_or.mp hc01).1,
                              hex_ok_of_not_neg _ (not_or.mp hc01).2,
                              hex_ok_of_not_neg _ (not_or.mp hc34).1,
                              hex_ok_of_not_neg _ (not_or.mp hc34).2,
                              hex_ok_of_not_neg _ (not_or.mp hc67).1,
                              hex_ok_of_not_neg _ (not_or.mp hc67).2,
                              hex_ok_of_not_neg _ (not_or.mp hc910).1,
                              hex_ok_of_not_neg _ (not_or.mp hc910).2,
                              hex_ok_of_not_neg _ (not_or.mp hc1213).1,
                              hex_ok_of_not_neg _ (not_or.mp hc1213).2,
                              hex_ok_of_not_neg _ (not_or.mp hc1516).1,
                              hex_ok_of_not_neg _ (not_or.mp hc1516).2]
                          all_goals rfl


/-- C6: rendering any six-byte MAC and parsing it back returns the same
bytes, and the rendered text is a 17-character lowercase colon-separated
string; from_string fails, always with invalid_mac_address, exactly when
the input is not 17 characters with a consistent colon-or-dash separator
taken from position 2 and hex digits (uppercase accepted) elsewhere. -/
theorem mac_string_spec (m : List Nat) (s : List Char) :
    (macOk m →
      mac_from_string (mac_to_string m) = .ok m ∧
      lowercaseColonRendered (mac_to_string m) = true) ∧
    ((mac_from_string s).isOk = true ↔ macStringWellFormed s = true) ∧
    (mac_from_string s = .error .invalidMacAddress ↔
      macStringWellFormed s = false) := by
  refine ⟨fun hm => ?_, mac_isOk_iff s, ?_, ?_⟩
  · obtain ⟨hl, hb⟩ := hm
    rcases m with _ | ⟨b0, m⟩
    · simp only [List.length_nil] at hl
      omega
    rcases m with _ | ⟨b1, m⟩
    · simp only [List.length_cons, List.length_nil] at hl
      omega
    rcases m with _ | ⟨b2, m⟩
    · simp only [List.length_cons, List.length_nil] at hl
      omega
    rcases m with _ | ⟨b3, m⟩
    · simp only [List.length_cons, List.length_nil] at hl
      omega
    rcases m with _ | ⟨b4, m⟩
    · simp only [List.length_cons, List.length_nil] at hl
      omega
    rcases m with _ | ⟨b5, m⟩
    · simp only [List.length_cons, List.length_nil] at hl
      omega
    rcases m with _ | ⟨b6, m⟩
    case cons =>
      simp only [List.length_cons, List.length_nil] at hl
      omega
    exact ⟨mac_roundtrip_aux b0 b1 b2 b3 b4 b5
        (hb _ (by simp)) (hb _ (by simp)) (hb _ (by simp))
        (hb _ (by simp)) (hb _ (by simp)) (hb _ (by simp)),
      mac_render_shape b0 b1 b2 b3 b4 b5⟩
  · intro he
    cases hwf : macStringWellFormed s
    · rfl
    · have hok := (mac_isOk_iff s).mpr hwf
      rw [he] at hok
      exact absurd hok (by decide)
  · intro hwf
    rcases mac_from_string_err_shape s with h | h
    · rw [mac_isOk_iff s] at h
      rw [h] at hwf
      exact absurd hwf (by decide)
    · exact h

/-- Witness for the MAC text specification at concrete values. -/
theorem mac_string_spec_witness :
    mac_from_string (mac_to_string [0xde, 0xad, 0xbe, 0xef, 0x00, 0x42])
      = .ok [0xde, 0xad, 0xbe, 0xef, 0x00, 0x42] ∧
    ((mac_from_string ('a' :: 'a' :: ':' :: 'b' :: 'b' :: '-' :: 'c' :: 'c' ::
        ':' :: 'd' :: 'd' :: '-' :: 'e' :: 'e' :: ':' :: 'f' :: 'f' ::
        [])).isOk = true ↔
      macStringWellFormed ('a' :: 'a' :: ':' :: 'b' :: 'b' :: '-' :: 'c' ::
        'c' :: ':' :: 'd' :: 'd' :: '-' :: 'e' :: 'e' :: ':' :: 'f' :: 'f' ::
        []) = true) :=
  ⟨((mac_string_spec [0xde, 0xad, 0xbe, 0xef, 0x00, 0x42] []).1
      ⟨by decide, by decide⟩).1,
   (mac_string_spec [] ('a' :: 'a' :: ':' :: 'b' :: 'b' :: '-' :: 'c' :: 'c' ::
      ':' :: 'd' :: 'd' :: '-' :: 'e' :: 'e' :: ':' :: 'f' :: 'f' ::
      [])).2.1⟩

end L2Net
